import Mathlib

/-!
Verification of the GPU worker-thread coordination engine in
`src/src/core/gpu_thread.cpp` (namespace `GPUThread`).

The embedding below translates the producer/consumer ring buffer
(`AllocateCommand`, `PushCommand`, `GetPendingCommandSize`, the drain loop of
`RunGPULoop`), the wake/sleep/sync protocol (`WakeGPUThread`, `SleepGPUThread`,
`SyncGPUThread`), the backend fallback logic (`CreateGPUBackendOnThread`), the
device-lost recovery (`HandleGPUDeviceLost`) and the vsync facade (`SetVSync`)
into pure Lean definitions.  Machine integers (`u32`, `s32`) are modelled as
`Nat` bit patterns below `2 ^ 32`, with explicit `% 2 ^ 32` where the source
can overflow; the signed comparison `< 0` on `s32` becomes `2 ^ 31 ≤ pattern`.
-/

namespace GPUThread

/-- Source `COMMAND_QUEUE_SIZE = 4 * 1024 * 1024`, the ring capacity `C`
(gpu_thread.cpp line 37). -/
def COMMAND_QUEUE_SIZE : Nat := 4 * 1024 * 1024

/-- Source `THRESHOLD_TO_WAKE_GPU = 256` (gpu_thread.cpp line 38). -/
def THRESHOLD_TO_WAKE_GPU : Nat := 256

/-- Source `THREAD_WAKE_COUNT_CPU_THREAD_IS_WAITING = 0x40000000`
(gpu_thread.cpp line 93). -/
def THREAD_WAKE_COUNT_CPU_THREAD_IS_WAITING : Nat := 0x40000000

/-- Source `THREAD_WAKE_COUNT_SLEEPING = -1` (gpu_thread.cpp line 94), as the
unsigned 32-bit pattern of the two's-complement value `-1`. -/
def THREAD_WAKE_COUNT_SLEEPING : Nat := 4294967295

/-- Modelled from the spec: `sizeof(GPUThreadCommand)` — the command header
(`size` + `type` tag), declared in gpu_thread.h which is not under `src/`.
The spec (§4.1) requires the header size to be a multiple of 4; a `u32` size
field plus a one-byte tag padded to alignment 4 gives 8 bytes.  No theorem in
this file depends on the exact value. -/
def sizeofGPUThreadCommand : Nat := 8

/-- Modelled from the spec: `sizeof(GPUBackendCommand)` — the header plus the
`params` word written by the wraparound dummy command (gpu_thread.cpp lines
280-283); declared in gpu_backend.h which is not under `src/`.  A 4-byte
aligned struct extending the 8-byte header with a `u32` params union gives 12
bytes.  The theorems below only use that it is a positive multiple of 4. -/
def sizeofGPUBackendCommand : Nat := 12

/-- Modelled from the spec: `sizeof(GPUBackendCommandType)` — the enum tag
(a `u8`), declared in gpu_backend.h which is not under `src/`. -/
def sizeofGPUBackendCommandType : Nat := 1

/-- Source `Common::AlignUpPow2(size, 4)` (gpu_thread.cpp line 258):
round `n` up to the next multiple of 4. -/
def alignUpPow2_4 (n : Nat) : Nat := (n + 3) / 4 * 4

/-! ## AllocateCommand (gpu_thread.cpp lines 255-294), sequential model

One iteration of the `for (;;)` loop, with the consumer quiescent (the
`read_ptr` atomic does not move).  `done off` is the fall-through to line 289
returning the slot at `off` (always the current `write_ptr`); `wrapped` is the
dummy-`Wraparound` branch of lines 276-286; `blocked` is the busy-wait of
lines 264-273, which with a quiescent consumer never gains space. -/

inductive AllocIter where
  | done (off : Nat)
  | wrapped
  | blocked
deriving DecidableEq

/-- One iteration of the allocation loop.  `size` is already aligned.
Line 264 compares the freshly loaded pointers; line 267 waits while
`available_size < size + sizeof(GPUBackendCommandType)`; line 277 wraps when
`size + sizeof(GPUBackendCommand) > COMMAND_QUEUE_SIZE - write_ptr`. -/
def allocIter (read_ptr write_ptr size : Nat) : AllocIter :=
  if write_ptr < read_ptr then
    if size + sizeofGPUBackendCommandType ≤ read_ptr - write_ptr then
      .done write_ptr
    else
      .blocked
  else
    if COMMAND_QUEUE_SIZE - write_ptr < size + sizeofGPUBackendCommand then
      .wrapped
    else
      .done write_ptr

/-- Observable producer-side events of one `AllocateCommand` call: writing the
dummy `Wraparound` header (lines 280-283) and the release store
`m_command_fifo_write_ptr.store(0)` (line 284). -/
inductive AllocEvent where
  | wroteWraparound (off sizeField : Nat)
  | storedWritePtr (v : Nat)
deriving DecidableEq

/-- Result of a (sequential) `AllocateCommand` call: the returned slot
`(offset, reserved size)` if the call completes without consumer help, and
the events performed, in order. -/
structure AllocRun where
  slot : Option (Nat × Nat)
  events : List AllocEvent
deriving DecidableEq

/-- The `for (;;)` loop of `AllocateCommand`, fuelled; `size` is already
aligned.  A `wrapped` iteration emits its two events and retries with
`write_ptr = 0` exactly as line 284/285 (`store(0); continue`). -/
def allocateLoop (read_ptr size : Nat) : Nat → Nat → AllocRun
  | 0, _ => ⟨none, []⟩
  | fuel + 1, write_ptr =>
    match allocIter read_ptr write_ptr size with
    | .done off => ⟨some (off, size), []⟩
    | .blocked => ⟨none, []⟩
    | .wrapped =>
      let rest := allocateLoop read_ptr size fuel 0
      ⟨rest.slot,
        .wroteWraparound write_ptr (COMMAND_QUEUE_SIZE - write_ptr) ::
          .storedWritePtr 0 :: rest.events⟩

/-- Source `GPUThread::AllocateCommand` with the consumer quiescent.  The size is
aligned up to a multiple of 4 first (line 258).  Two units of fuel suffice for
every in-contract request: at most one wraparound can occur. -/
def AllocateCommand (read_ptr write_ptr size : Nat) : AllocRun :=
  allocateLoop read_ptr (alignUpPow2_4 size) 2 write_ptr

/-! ## The ring as a small-step machine

States record the two shared offsets, the header bytes written into the
buffer (latest write first, as an association list keyed by offset), the
ghost list of published slots in publication order, and the ghost log of
slot ids handed to a dispatch case of `RunGPULoop`'s switch.  Every step
below is a sequence of consecutive atomic actions of one thread, so every
machine trace is realizable by the C++ code under some scheduling. -/

/-- A command header as written at some buffer offset: ghost id, the `size`
field, and whether the `type` field is `Wraparound`. -/
structure Header where
  hid : Nat
  hsize : Nat
  hwrap : Bool
deriving DecidableEq

structure QState where
  read_ptr : Nat
  write_ptr : Nat
  buf : List (Nat × Header)
  published : List Header
  dispatched : List Nat
deriving DecidableEq

def initQState : QState := ⟨0, 0, [], [], []⟩

/-- Effect of `AllocateCommand` writing a header at `write_ptr` (line 289-291)
immediately followed by `PushCommand`'s `fetch_add(cmd->size)` (line 305). -/
def pushResult (s : QState) (id size : Nat) : QState :=
  { read_ptr := s.read_ptr
    write_ptr := s.write_ptr + alignUpPow2_4 size
    buf := (s.write_ptr, ⟨id, alignUpPow2_4 size, false⟩) :: s.buf
    published := s.published ++ [⟨id, alignUpPow2_4 size, false⟩]
    dispatched := s.dispatched }

/-- Effect of the wraparound branch (lines 280-284): dummy header of size
`COMMAND_QUEUE_SIZE - write_ptr` at `write_ptr`, then `write_ptr := 0`. -/
def wrapResult (s : QState) (id : Nat) : QState :=
  { read_ptr := s.read_ptr
    write_ptr := 0
    buf := (s.write_ptr, ⟨id, COMMAND_QUEUE_SIZE - s.write_ptr, true⟩) :: s.buf
    published := s.published ++ [⟨id, COMMAND_QUEUE_SIZE - s.write_ptr, true⟩]
    dispatched := s.dispatched }

/-- The consumer's walk of lines 444-448: starting at `cur`, repeatedly read
the header at the cursor and advance by its `size` field, up to exactly
`stop`.  Returns the headers visited, or `none` if the walk does not tile
`[cur, stop)` cleanly (the machine only steps on clean walks). -/
def walkSlots (buf : List (Nat × Header)) : Nat → Nat → Nat → Option (List Header)
  | 0, _, _ => none
  | fuel + 1, cur, stop =>
    if cur = stop then some []
    else if stop < cur then none
    else
      match buf.lookup cur with
      | none => none
      | some hd =>
        if hd.hsize = 0 then none
        else
          match walkSlots buf fuel (cur + hd.hsize) stop with
          | none => none
          | some rest => some (hd :: rest)

/-- Effect of a consumer batch: the walked non-`Wraparound` headers are handed
to a dispatch case (lines 463-488) and the batch's final cursor is published
into `m_command_fifo_read_ptr` (line 459 or 492). -/
def drainResult (s : QState) (hs : List Header) (newRead : Nat) : QState :=
  { s with
    read_ptr := newRead
    dispatched := s.dispatched ++ (hs.filter (fun h => !h.hwrap)).map Header.hid }

inductive QStep : QState → QState → Prop where
  /-- Producer: a first-iteration allocation success (line 289) followed by
  `PushCommand` (lines 303-310). -/
  | push (s : QState) (id size : Nat)
      (halloc : allocIter s.read_ptr s.write_ptr (alignUpPow2_4 size) =
        .done s.write_ptr) :
      QStep s (pushResult s id size)
  /-- Producer: the wraparound branch of `AllocateCommand` (lines 276-286),
  taken while trying to allocate `size` bytes. -/
  | wraparound (s : QState) (id size : Nat)
      (halloc : allocIter s.read_ptr s.write_ptr (alignUpPow2_4 size) = .wrapped) :
      QStep s (wrapResult s id)
  /-- Consumer: a batch in the unwrapped configuration — walk from `read_ptr`
  to the loaded `write_ptr` and publish `read_ptr = write_ptr` (line 492). -/
  | drain (s : QState) (fuel : Nat) (hs : List Header)
      (hlt : s.read_ptr < s.write_ptr)
      (hwalk : walkSlots s.buf fuel s.read_ptr s.write_ptr = some hs)
      (hnw : ∀ h ∈ hs, h.hwrap = false) :
      QStep s (drainResult s hs s.write_ptr)
  /-- Consumer: the wrapped configuration (`write_ptr < read_ptr`, line 443
  sets the batch end to `COMMAND_QUEUE_SIZE`) — walk to the capacity, whose
  last slot is the `Wraparound` header, and publish `read_ptr = 0`
  (lines 452-460). -/
  | drainWrap (s : QState) (fuel : Nat) (hs : List Header) (hw : Header)
      (hlt : s.write_ptr < s.read_ptr)
      (hwalk : walkSlots s.buf fuel s.read_ptr COMMAND_QUEUE_SIZE =
        some (hs ++ [hw]))
      (hnw : ∀ h ∈ hs, h.hwrap = false)
      (hww : hw.hwrap = true) :
      QStep s (drainResult s hs 0)

/-- Reachability from the initial (empty) ring. -/
inductive ReachQ : QState → Prop where
  | init : ReachQ initQState
  | step {s t : QState} : ReachQ s → QStep s t → ReachQ t

/-! A concrete four-step execution.  The producer publishes command 1 filling
the ring up to 12 bytes short of the capacity, then a request for a 16-byte
command 3 triggers the wraparound branch (slot 2) while `read_ptr = 0`:
line 284 stores `write_ptr = 0`, silently making the non-empty ring equal to
the empty one.  The retry then allocates command 3 at offset 0, overwriting
the header of the still-undispatched command 1, and the consumer's next batch
dispatches only command 3. -/

def q1 : QState := pushResult initQState 1 4194292

def q2 : QState := wrapResult q1 2

def q3 : QState := pushResult q2 3 16

def q4 : QState := drainResult q3 [⟨3, 16, false⟩] q3.write_ptr

/-! ## Wake protocol (gpu_thread.cpp lines 329-398)

`s_thread_wake_count` is an `s32`; we carry its unsigned 32-bit pattern. -/

/-- The `s32` pattern `w` is negative. -/
def s32Neg (w : Nat) : Bool := decide (2147483648 ≤ w)

/-- Signed value of a 32-bit pattern (for stating facts about sentinels). -/
def toS32 (w : Nat) : Int := if w < 2147483648 then (w : Int) else (w : Int) - 4294967296

/-- Source `GetThreadWakeCount` (line 329-332): `state & ~THREAD_WAKE_COUNT_CPU_THREAD_IS_WAITING`. -/
def GetThreadWakeCount (state : Nat) : Nat := state &&& 0xBFFFFFFF

/-- Source `GetThreadWakeCount(w) < 0` (signed). -/
def countIsNeg (w : Nat) : Bool := s32Neg (GetThreadWakeCount w)

/-- Source `GetThreadWakeCount(w) > 0` (signed). -/
def countIsPos (w : Nat) : Bool :=
  !s32Neg (GetThreadWakeCount w) && decide (GetThreadWakeCount w ≠ 0)

/-- Source `WakeGPUThread` (lines 334-340): new value of `s_thread_wake_count` after
`fetch_add(2)`, on the 32-bit pattern. -/
def WakeGPUThreadState (w : Nat) : Nat := (w + 2) % 4294967296

/-- Source `WakeGPUThread` posts `s_thread_wake_semaphore` iff the prior value was
negative (line 338). -/
def WakeGPUThreadPosts (w : Nat) : Bool := s32Neg w

/-- The value installed by the CAS of `SleepGPUThread` (lines 375-382): keep
only the waiting flag if work is pending, else the sleeping sentinel. -/
def SleepGPUThreadNewState (old : Nat) : Nat :=
  if countIsPos old then old &&& THREAD_WAKE_COUNT_CPU_THREAD_IS_WAITING
  else THREAD_WAKE_COUNT_SLEEPING

/-- Source `SleepGPUThread` posts `s_thread_is_done_semaphore` iff it found no
pending work and the old state carried the waiting flag (lines 385-390). -/
def SleepGPUThreadPostsDone (old : Nat) : Bool :=
  !countIsPos old && decide (old &&& THREAD_WAKE_COUNT_CPU_THREAD_IS_WAITING ≠ 0)

/-! ## The spin phase of SyncGPUThread (gpu_thread.cpp lines 344-353) -/

/-- Modelled from the spec: `Threading::SPIN_TIME_NS` (common/threading.h, not
under `src/`), "implementation ≈ microseconds".  The theorems below hold for
every value. -/
def SPIN_TIME_NS : Nat := 1000

inductive SpinOutcome where
  | returnedSleeping
  | proceededToCas
  | stillSpinning (waited : Nat)
deriving DecidableEq

/-- The `do { ... } while (waited <= Threading::SPIN_TIME_NS)` loop of
`SyncGPUThread` (lines 346-352), driven by the successive observed values of
`s_thread_wake_count`.  Faithful to the source: `waited` is initialized to 0
at line 346 and never modified anywhere in the loop, so the continuation
condition compares the constant 0 against `SPIN_TIME_NS`.  An exhausted
observation list means the loop is still running after that many iterations. -/
def SyncGPUThreadSpin (waited : Nat) : List Nat → SpinOutcome
  | [] => .stillSpinning waited
  | w :: rest =>
    if countIsNeg w then .returnedSleeping
    else if waited ≤ SPIN_TIME_NS then SyncGPUThreadSpin waited rest
    else .proceededToCas

/-! ## Backend creation and hardware→software fallback
(gpu_thread.cpp lines 628-662) -/

/-- Modelled from the spec: the renderer enumeration (settings.h, not under
`src/`).  Only the software / non-software distinction is consulted by
`CreateGPUBackendOnThread` (`is_hardware = renderer != GPURenderer::Software`,
line 634). -/
inductive GPURenderer where
  | Hardware
  | Software
deriving DecidableEq

inductive BackendChoice where
  | hardware
  | software
deriving DecidableEq

/-- Modelled from the spec: outcomes of the external backend interface
(gpu_backend.h, not under `src/`): whether the hardware backend's
`Initialize(clear_vram)` returns true, whether `CreateSoftwareBackend()`
returns a non-null object, and what the software backend's `Initialize`
would return if invoked. -/
structure BackendEnv where
  hwInitOk : Bool
  swCreateOk : Bool
  swInitOk : Bool
deriving DecidableEq

/-- Result of `CreateGPUBackendOnThread`: the backend left in `s_gpu_backend`,
whether `Initialize` was invoked on it and returned true, the number of OSD
messages emitted, whether `Panic` was reached, and the final
`s_requested_renderer`. -/
structure BackendOutcome where
  backend : Option BackendChoice
  backendInitOk : Bool
  osdMessages : Nat
  panicked : Bool
  requested : Option GPURenderer
deriving DecidableEq

/-- Source `GPUThread::CreateGPUBackendOnThread` (lines 628-662).  On hardware
`Initialize` failure it emits one OSD message, sets the requested renderer to
software and creates — without calling `Initialize` — a software backend,
panicking only when `CreateSoftwareBackend()` returns null (lines 656-659). -/
def CreateGPUBackendOnThread (requested : Option GPURenderer) (env : BackendEnv) :
    BackendOutcome :=
  match requested with
  | none => ⟨none, false, 0, false, none⟩
  | some GPURenderer.Software =>
    ⟨some .software, env.swInitOk, 0, false, some .Software⟩
  | some GPURenderer.Hardware =>
    if env.hwInitOk then
      ⟨some .hardware, true, 0, false, some .Hardware⟩
    else if env.swCreateOk then
      ⟨some .software, false, 1, false, some .Software⟩
    else
      ⟨none, false, 1, true, some .Software⟩

/-! ## Device-lost recovery (gpu_thread.cpp lines 591-626) -/

/-- Modelled from the spec: `Common::Timer` tick frequency (common/timer.h,
not under `src/`); `ConvertValueToSeconds(v) < 15.0f` is modelled as
`v < 15 * TICKS_PER_SECOND`. -/
def TICKS_PER_SECOND : Nat := 1000000000

/-- Source `MIN_TIME_BETWEEN_RESETS = 15.0f` seconds (line 594), in ticks. -/
def MIN_TIME_BETWEEN_RESETS_TICKS : Nat := 15 * TICKS_PER_SECOND

inductive DLAction where
  | destroyBackend
  | destroyDevice
  | createDeviceFor (r : Option GPURenderer)
  | createBackend
deriving DecidableEq

/-- Source `GPUThread::HandleGPUDeviceLost` (lines 591-626).  Arguments: the static
`s_last_gpu_reset_time` (0 = never reset), the current timer value, the
requested renderer, and whether `CreateDeviceOnThread` succeeds.  Returns the
new `s_last_gpu_reset_time`, whether `Panic` was reached, and the lifecycle
actions performed in order. -/
def HandleGPUDeviceLost (lastResetTime now : Nat) (requested : Option GPURenderer)
    (recreateOk : Bool) : Nat × Bool × List DLAction :=
  if lastResetTime ≠ 0 ∧ now - lastResetTime < MIN_TIME_BETWEEN_RESETS_TICKS then
    (lastResetTime, true, [])
  else if recreateOk then
    (now, false,
      [.destroyBackend, .destroyDevice, .createDeviceFor requested, .createBackend])
  else
    (now, true, [.destroyBackend, .destroyDevice, .createDeviceFor requested])

/-! ## SetVSync facade (gpu_thread.cpp lines 850-861) -/

/-- Modelled from the spec: `GPUVSyncMode` (util/gpu_device.h, not under
`src/`); `SetVSync` only tests values for equality. -/
inductive GPUVSyncMode where
  | Disabled
  | FIFO
  | Mailbox
deriving DecidableEq

/-- The producer-side requested fields `s_requested_vsync` and
`s_requested_allow_present_throttle` (lines 69-70). -/
structure VSyncReq where
  requested_vsync : GPUVSyncMode
  requested_allow_present_throttle : Bool
deriving DecidableEq

/-- Source `GPUThread::SetVSync` (lines 850-861): returns the new requested fields
and whether an `UpdateVSync` command was allocated, pushed and the consumer
woken (line 860). -/
def SetVSync (st : VSyncReq) (mode : GPUVSyncMode) (throttle : Bool) :
    VSyncReq × Bool :=
  if st.requested_vsync = mode ∧ st.requested_allow_present_throttle = throttle then
    (st, false)
  else
    (⟨mode, throttle⟩, true)

/-! ## PushCommand and GetPendingCommandSize (gpu_thread.cpp lines 296-310) -/

/-- Source `GPUThread::GetPendingCommandSize` (lines 296-301). -/
def GetPendingCommandSize (read_ptr write_ptr : Nat) : Nat :=
  if read_ptr ≤ write_ptr then write_ptr - read_ptr
  else COMMAND_QUEUE_SIZE - read_ptr + write_ptr

/-- Result of `PushCommand`: the new `m_command_fifo_write_ptr`, whether
`WakeGPUThread` was called, and the resulting wake-state pattern. -/
structure PushOutcome where
  write_ptr : Nat
  wakeCalled : Bool
  wakeState : Nat
deriving DecidableEq

/-- Source `GPUThread::PushCommand` (lines 303-310): advance `write_ptr` by the
command's size, then call `WakeGPUThread` iff the pending size reaches
`THRESHOLD_TO_WAKE_GPU`. -/
def PushCommand (read_ptr write_ptr cmdSize w : Nat) : PushOutcome :=
  let nw := write_ptr + cmdSize
  if THRESHOLD_TO_WAKE_GPU ≤ GetPendingCommandSize read_ptr nw then
    ⟨nw, true, WakeGPUThreadState w⟩
  else
    ⟨nw, false, w⟩

/-! ## Theorems -/

/-- Every slot returned by the allocation loop reserves exactly the aligned
size it was asked for (line 291 stores it into the header's `size` field). -/
theorem allocateLoop_slot_size (size : Nat) :
    ∀ fuel read_ptr write_ptr off sz,
      (allocateLoop read_ptr size fuel write_ptr).slot = some (off, sz) → sz = size := by
  intro fuel
  induction fuel with
  | zero =>
    intro read_ptr write_ptr off sz h
    simp [allocateLoop] at h
  | succ n ih =>
    intro read_ptr write_ptr off sz h
    unfold allocateLoop at h
    cases halloc : allocIter read_ptr write_ptr size with
    | done o => rw [halloc] at h; simp at h; exact h.2.symm
    | blocked => rw [halloc] at h; simp at h
    | wrapped => rw [halloc] at h; simp at h; exact ih read_ptr 0 off sz h

/-- C1: `GPUThread::AllocateCommand(type, size)` reserves exactly
`AlignUpPow2(size, 4)` bytes (header included), and whenever the requested
allocation would cross the capacity, the producer first writes a `Wraparound`
header whose `size` field is exactly the remaining `COMMAND_QUEUE_SIZE -
write_ptr` bytes and stores `write_ptr = 0`, before retrying the
allocation. -/
theorem C1_allocate_aligns_and_wraps (read_ptr write_ptr size : Nat)
    (hw : write_ptr ≤ COMMAND_QUEUE_SIZE) (hr : read_ptr ≤ write_ptr)
    (hs : alignUpPow2_4 size + sizeofGPUBackendCommand ≤ COMMAND_QUEUE_SIZE) :
    (∀ off sz, (AllocateCommand read_ptr write_ptr size).slot = some (off, sz) →
      sz = alignUpPow2_4 size) ∧
    (COMMAND_QUEUE_SIZE < write_ptr + alignUpPow2_4 size →
      (AllocateCommand read_ptr write_ptr size).events =
        [AllocEvent.wroteWraparound write_ptr (COMMAND_QUEUE_SIZE - write_ptr),
         AllocEvent.storedWritePtr 0]) := by
  constructor
  · intro off sz h
    exact allocateLoop_slot_size (alignUpPow2_4 size) 2 read_ptr write_ptr off sz h
  · intro hcross
    have hszc : (0 : Nat) < sizeofGPUBackendCommand := by
      simp [sizeofGPUBackendCommand]
    have hiter : allocIter read_ptr write_ptr (alignUpPow2_4 size) = .wrapped := by
      unfold allocIter
      rw [if_neg (by omega), if_pos (by omega)]
    have hiter2 : allocIter read_ptr 0 (alignUpPow2_4 size) ≠ .wrapped := by
      unfold allocIter
      rcases Nat.eq_zero_or_pos read_ptr with h0 | h0
      · rw [if_neg (by omega), if_neg (by omega)]
        simp
      · rw [if_pos (by omega)]
        split <;> simp
    unfold AllocateCommand allocateLoop
    rw [hiter]
    cases h2 : allocIter read_ptr 0 (alignUpPow2_4 size) with
    | done o => simp [allocateLoop, h2]
    | blocked => simp [allocateLoop, h2]
    | wrapped => exact absurd h2 hiter2

/-- Witness for C1 at `read_ptr = 0`, `write_ptr = 4194300`, `size = 8`. -/
theorem C1_allocate_witness :
    4194300 ≤ COMMAND_QUEUE_SIZE ∧
    COMMAND_QUEUE_SIZE < 4194300 + alignUpPow2_4 8 ∧
    (AllocateCommand 0 4194300 8).events =
      [AllocEvent.wroteWraparound 4194300 4, AllocEvent.storedWritePtr 0] :=
  ⟨by decide, by decide,
    (C1_allocate_aligns_and_wraps 0 4194300 8 (by decide) (by decide)
      (by decide)).2 (by decide)⟩

/-- The four-step execution reaches `q2`: the state right after the
wraparound branch stored `write_ptr = 0` while `read_ptr = 0`. -/
theorem reach_q2 : ReachQ q2 :=
  ReachQ.step
    (ReachQ.step ReachQ.init (QStep.push initQState 1 4194292 (by decide)))
    (QStep.wraparound q1 2 16 (by decide))

/-- The execution continues to `q4`: command 3 is allocated at offset 0 on the
retry (overwriting command 1's header) and the consumer then drains the ring
completely, dispatching only command 3. -/
theorem reach_q4 : ReachQ q4 :=
  ReachQ.step
    (ReachQ.step reach_q2 (QStep.push q2 3 16 (by decide)))
    (QStep.drain q3 2 [⟨3, 16, false⟩] (by decide) (by decide) (by decide))

/-- C2: FALSIFIED on the code.  The state `q2` is reachable (producer publishes
a 4194292-byte command into the empty ring, then requests a 16-byte command;
the wraparound branch of `AllocateCommand` stores `write_ptr = 0` while
`read_ptr = 0`).  In `q2` the offsets are equal — the ring reads as empty —
although the published non-`Wraparound` command 1 was never dispatched, so
`read == write ⇔ empty` does not hold in every reachable ring state. -/
theorem C2_empty_invariant_violated :
    ReachQ q2 ∧ q2.read_ptr = q2.write_ptr ∧
    (⟨1, 4194292, false⟩ : Header) ∈ q2.published ∧
    (⟨1, 4194292, false⟩ : Header).hwrap = false ∧
    1 ∉ q2.dispatched :=
  ⟨reach_q2, by decide, by decide, by decide, by decide⟩

/-- C3: FALSIFIED on the code.  In the reachable state `q4` the consumer has
completed its batch (`read_ptr = write_ptr`), yet of the two published
non-`Wraparound` commands only command 3 was ever handed to a dispatch case:
command 1's header was overwritten when the allocation retry after the
wraparound (performed while `read_ptr = 0`) restarted at offset 0, so the
published slots are not all dispatched in publication order with the bytes
the producer wrote. -/
theorem C3_dispatch_order_violated :
    ReachQ q4 ∧ q4.read_ptr = q4.write_ptr ∧
    (⟨1, 4194292, false⟩ : Header) ∈ q4.published ∧
    (⟨3, 16, false⟩ : Header) ∈ q4.published ∧
    q4.dispatched = [3] ∧ 1 ∉ q4.dispatched ∧
    q4.buf.lookup 0 = some ⟨3, 16, false⟩ :=
  ⟨reach_q4, by decide, by decide, by decide, by decide, by decide, by decide⟩

/-- C5: FALSIFIED on the code.  In the reachable state `q4` the ring is fully
drained (`read_ptr = write_ptr`), so a consumer entering `SleepGPUThread`
with the producer's `CPU_WAITING` flag set posts `s_thread_is_done_semaphore`
and the producer's `SyncGPUThread` returns — yet the command published before
the sync (id 1) was never dispatched, having been silently overwritten after
the wraparound performed while `read_ptr = 0`. -/
theorem C5_sync_returns_undispatched :
    ReachQ q4 ∧ q4.read_ptr = q4.write_ptr ∧
    (⟨1, 4194292, false⟩ : Header) ∈ q4.published ∧ 1 ∉ q4.dispatched ∧
    SleepGPUThreadPostsDone THREAD_WAKE_COUNT_CPU_THREAD_IS_WAITING = true ∧
    SleepGPUThreadNewState THREAD_WAKE_COUNT_CPU_THREAD_IS_WAITING =
      THREAD_WAKE_COUNT_SLEEPING :=
  ⟨reach_q4, by decide, by decide, by decide, by decide, by decide⟩

/-- C4 counterexample: the claim "the CPU_WAITING flag bit is never altered by
wake()" is false at the sleeping sentinel.  The prior value `-1` (pattern
`0xFFFFFFFF`) has bit 30 — the `THREAD_WAKE_COUNT_CPU_THREAD_IS_WAITING`
bit — set, and `fetch_add(2)` turns it into `1`, whose bit 30 is clear. -/
theorem C4_flag_bit_counterexample :
    toS32 THREAD_WAKE_COUNT_SLEEPING = -1 ∧
    WakeGPUThreadPosts THREAD_WAKE_COUNT_SLEEPING = true ∧
    WakeGPUThreadState THREAD_WAKE_COUNT_SLEEPING = 1 ∧
    Nat.testBit THREAD_WAKE_COUNT_SLEEPING 30 = true ∧
    Nat.testBit (WakeGPUThreadState THREAD_WAKE_COUNT_SLEEPING) 30 = false := by
  refine ⟨by decide, by decide, by decide, by decide, by decide⟩

/-- C4 (amended): `WakeGPUThread` adds exactly 2 to the wake state and posts
`s_thread_wake_semaphore` iff the prior value was negative; when the prior
value is non-negative (consumer not sleeping) and its pending count has not
reached `2^30 - 2`, the addition carries into neither bit 30 nor beyond, so
the `CPU_WAITING` flag bit is unaltered. -/
theorem C4_wake_amended (w : Nat) (h1 : w < 2147483648)
    (h2 : w % 1073741824 < 1073741822) :
    (∀ v : Nat, WakeGPUThreadPosts v = true ↔ 2147483648 ≤ v) ∧
    WakeGPUThreadState w = w + 2 ∧
    Nat.testBit (WakeGPUThreadState w) 30 = Nat.testBit w 30 := by
  have hm : WakeGPUThreadState w = w + 2 := by
    unfold WakeGPUThreadState
    omega
  refine ⟨?_, hm, ?_⟩
  · intro v
    unfold WakeGPUThreadPosts s32Neg
    simp
  · rw [hm, Nat.testBit_to_div_mod, Nat.testBit_to_div_mod]
    simp only [decide_eq_decide]
    omega

/-- Witness for the amended C4 at `w = 4`. -/
theorem C4_wake_amended_witness :
    4 < 2147483648 ∧ 4 % 1073741824 < 1073741822 ∧
    WakeGPUThreadState 4 = 4 + 2 ∧
    Nat.testBit (WakeGPUThreadState 4) 30 = Nat.testBit 4 30 :=
  ⟨by decide, by decide, (C4_wake_amended 4 (by decide) (by decide)).2.1,
    (C4_wake_amended 4 (by decide) (by decide)).2.2⟩

/-- C6: FALSIFIED on the code.  The spin phase of `SyncGPUThread(spin = true)`
never times out: `waited` is initialized to 0 and never advanced, so the
continuation condition `waited <= SPIN_TIME_NS` always holds and, as long as
the observed wake count never goes negative, the loop is still spinning after
arbitrarily many iterations and in particular never proceeds to the blocking
CAS path. -/
theorem C6_spin_never_proceeds (n : Nat) :
    SyncGPUThreadSpin 0 (List.replicate n 0) = SpinOutcome.stillSpinning 0 ∧
    SyncGPUThreadSpin 0 (List.replicate n 0) ≠ SpinOutcome.proceededToCas := by
  induction n with
  | zero => exact ⟨rfl, by decide⟩
  | succ k ih =>
    have hstep :
        SyncGPUThreadSpin 0 (List.replicate (k + 1) 0) =
          SyncGPUThreadSpin 0 (List.replicate k 0) := by
      rw [List.replicate_succ]
      rfl
    exact ⟨hstep.trans ih.1, hstep ▸ ih.2⟩

/-- C7: FALSIFIED on the code.  Evaluating `CreateGPUBackendOnThread` with a
hardware backend whose `Initialize` fails and a software backend whose
construction succeeds but whose `Initialize` would fail: the backend left in
use is the software one with `Initialize` never invoked (`backendInitOk =
false` although `swInitOk = false` was never even consulted), exactly one OSD
message is emitted, and no abort occurs — lines 656-659 only null-check
`CreateSoftwareBackend()` and never call `Initialize` on the fallback. -/
theorem C7_fallback_skips_init :
    CreateGPUBackendOnThread (some GPURenderer.Hardware)
        ⟨false, true, false⟩ =
      ⟨some BackendChoice.software, false, 1, false, some GPURenderer.Software⟩ ∧
    CreateGPUBackendOnThread (some GPURenderer.Hardware)
        ⟨false, true, true⟩ =
      CreateGPUBackendOnThread (some GPURenderer.Hardware) ⟨false, true, false⟩ := by
  exact ⟨rfl, rfl⟩

/-- C8: of two consecutive device-lost events, a second one striking within
15 seconds of the previous reset panics; the first loss, and any loss at
least 15 seconds after the previous reset, recovers by destroying the backend
and the device and recreating them for the currently-requested renderer, and
panics if the device re-creation fails. -/
theorem C8_device_lost_rate_limit (t1 t2 : Nat) (req : Option GPURenderer)
    (rec2 : Bool) (h1 : 0 < t1) :
    HandleGPUDeviceLost 0 t1 req true =
      (t1, false, [DLAction.destroyBackend, DLAction.destroyDevice,
        DLAction.createDeviceFor req, DLAction.createBackend]) ∧
    (t2 - t1 < MIN_TIME_BETWEEN_RESETS_TICKS →
      HandleGPUDeviceLost t1 t2 req rec2 = (t1, true, [])) ∧
    (MIN_TIME_BETWEEN_RESETS_TICKS ≤ t2 - t1 → rec2 = true →
      HandleGPUDeviceLost t1 t2 req rec2 =
        (t2, false, [DLAction.destroyBackend, DLAction.destroyDevice,
          DLAction.createDeviceFor req, DLAction.createBackend])) ∧
    (MIN_TIME_BETWEEN_RESETS_TICKS ≤ t2 - t1 → rec2 = false →
      HandleGPUDeviceLost t1 t2 req rec2 =
        (t2, true, [DLAction.destroyBackend, DLAction.destroyDevice,
          DLAction.createDeviceFor req])) := by
  refine ⟨?_, ?_, ?_, ?_⟩
  · unfold HandleGPUDeviceLost
    rw [if_neg (by omega), if_pos rfl]
  · intro hlt
    unfold HandleGPUDeviceLost
    rw [if_pos ⟨by omega, hlt⟩]
  · intro hge hrec
    unfold HandleGPUDeviceLost
    rw [if_neg (by omega), hrec, if_pos rfl]
  · intro hge hrec
    unfold HandleGPUDeviceLost
    rw [if_neg (by omega), hrec, if_neg (by simp)]

/-- Witness for C8 at `t1 = 1`, `t2 = 2` (second loss 2 ticks after the
first reset, far below the 15-second floor: panic). -/
theorem C8_device_lost_witness :
    0 < 1 ∧ 2 - 1 < MIN_TIME_BETWEEN_RESETS_TICKS ∧
    HandleGPUDeviceLost 1 2 none true = (1, true, []) :=
  ⟨by decide, by decide,
    (C8_device_lost_rate_limit 1 2 none true (by decide)).2.1 (by decide)⟩

/-- C9: `SetVSync(mode, throttle)` with `mode` equal to the currently
requested vsync mode and `throttle` equal to the currently requested
present-throttle flag is a no-op: the requested fields are unchanged and no
`UpdateVSync` command is allocated, pushed or used to wake the consumer
(lines 854-855 return before any mutation). -/
theorem C9_setvsync_noop (st : VSyncReq) (mode : GPUVSyncMode) (throttle : Bool)
    (h1 : st.requested_vsync = mode)
    (h2 : st.requested_allow_present_throttle = throttle) :
    SetVSync st mode throttle = (st, false) := by
  unfold SetVSync
  rw [if_pos ⟨h1, h2⟩]

/-- Witness for C9 at the concrete state `⟨Disabled, false⟩`. -/
theorem C9_setvsync_noop_witness :
    (VSyncReq.mk GPUVSyncMode.Disabled false).requested_vsync =
      GPUVSyncMode.Disabled ∧
    SetVSync ⟨GPUVSyncMode.Disabled, false⟩ GPUVSyncMode.Disabled false =
      (⟨GPUVSyncMode.Disabled, false⟩, false) :=
  ⟨rfl, C9_setvsync_noop ⟨GPUVSyncMode.Disabled, false⟩ GPUVSyncMode.Disabled
    false rfl rfl⟩

/-- C10: `PushCommand` advances `write_ptr` by the command's size and calls
`WakeGPUThread` exactly when the pending unconsumed byte count — computed by
`GetPendingCommandSize` from `read_ptr` and the advanced `write_ptr` modulo
the capacity — is at least `THRESHOLD_TO_WAKE_GPU = 256`. -/
theorem C10_push_threshold_wake (read_ptr write_ptr cmdSize w : Nat) :
    (PushCommand read_ptr write_ptr cmdSize w).write_ptr = write_ptr + cmdSize ∧
    ((PushCommand read_ptr write_ptr cmdSize w).wakeCalled = true ↔
      THRESHOLD_TO_WAKE_GPU ≤ GetPendingCommandSize read_ptr (write_ptr + cmdSize)) ∧
    ((PushCommand read_ptr write_ptr cmdSize w).wakeCalled = true →
      (PushCommand read_ptr write_ptr cmdSize w).wakeState = WakeGPUThreadState w) := by
  by_cases h :
    THRESHOLD_TO_WAKE_GPU ≤ GetPendingCommandSize read_ptr (write_ptr + cmdSize)
  · simp [PushCommand, h]
  · simp [PushCommand, h]

end GPUThread
